import Mathlib

/-!
Shallow embedding of the node-k8s-lifecycle orchestrator.

Source correspondence:
  * src/src/probes.ts: the lifecycle phase machine, the probe evaluators
    (isReady, checkReadiness, checkLiveness, isHealthy), the shutdown
    sequencer (startShutdown, shutdownPhase2, shutdownConnectionWatch,
    finishShutdown) and the SIGTERM handler.
  * src/README.md (embedded serverTracker source): the ServerTracker class
    (onConnection, onRequest, requestShutdown, forceClose, the connection
    counts and the getNextId generator).

JavaScript mutable socket fields ($$id, $$idle, $$isCheck) are modelled as a
heap of socket records indexed by a natural number; the tracker's Map from
connection id to socket is an insertion-ordered association list of
(connection id, socket index) pairs, so that mutating a socket through one
map entry is visible through every aliasing entry, exactly as in the source.
JavaScript truthiness of the numeric field $$id (undefined and 0 are both
falsy) is modelled by truthyId on Option Nat.  Asynchronous effects that the
claims mention (timers, the response flush callback, listener invocations)
are modelled explicitly: one-shot timers are pending flags consumed by fire
events, state-change listener fan-out is a log of (new, old) transitions
(the listener list is invoked exactly once per recorded entry), and the
all-settled outcomes of user ready checks are passed in as data.
-/

/-- Lifecycle phase enum from probes.ts (Startup, Running, Phase1 =
shutdown requested, Phase2 = draining, Phase3 = final). -/
inductive Phase where
  | Startup
  | Running
  | Phase1
  | Phase2
  | Phase3
deriving Repr, DecidableEq

/-- Ordinal position of a phase in the enum order used by the spec. -/
def Phase.idx : Phase → Nat
  | .Startup => 0
  | .Running => 1
  | .Phase1 => 2
  | .Phase2 => 3
  | .Phase3 => 4

/-- A JavaScript Error value; only the message field is observable through
the probes. -/
structure JsError where
  message : String
deriving Repr, DecidableEq

/-- Result record returned by checkReadiness and checkLiveness in
probes.ts. -/
structure ProbeCheckResult where
  healthy : Bool
  message : String
  statusCode : Nat
deriving Repr, DecidableEq

/-- Outcome of one user ready check under Promise.allSettled: fulfilled
with a boolean value, or rejected. -/
inductive SettledBool where
  | fulfilled (value : Bool)
  | rejected
deriving Repr, DecidableEq

/-- The test the source applies to each settled result: status is
fulfilled and value is exactly true. -/
def settledOk : SettledBool → Bool
  | .fulfilled v => v
  | .rejected => false

/-- Mutable per-socket metadata attached by the tracker: the fields $$id,
$$idle and $$isCheck (undefined boolean fields read as false), plus a flag
recording that destroy() has been invoked on the socket. -/
structure SockData where
  id : Option Nat
  idle : Bool
  isCheck : Bool
  destroyed : Bool
deriving Repr, DecidableEq

/-- JavaScript truthiness of the numeric field $$id: undefined (none) and
0 are falsy. -/
def truthyId : Option Nat → Bool
  | none => false
  | some n => n != 0

/-- Lookup in the tracker's Map (association list keyed by connection
id). -/
def mapGet (conns : List (Nat × Nat)) (k : Nat) : Option Nat :=
  (conns.find? (fun e => e.1 == k)).map (fun e => e.2)

/-- Map.set: overwrite an existing key in place, else append. -/
def mapSet (conns : List (Nat × Nat)) (k v : Nat) : List (Nat × Nat) :=
  if conns.any (fun e => e.1 == k) then
    conns.map (fun e => if e.1 == k then (k, v) else e)
  else
    conns ++ [(k, v)]

/-- Map.delete: remove the entry with the given key. -/
def mapDelete (conns : List (Nat × Nat)) (k : Nat) : List (Nat × Nat) :=
  conns.filter (fun e => e.1 != k)

/-- ServerTracker state: the isShuttingDown flag, the connection Map, the
socket heap, the hosted server's listening flag, and the configured health
check URLs (the source misspells the field as heatlhCheckUrls). -/
structure TrackerState where
  isShuttingDown : Bool
  connections : List (Nat × Nat)
  sockets : List SockData
  listening : Bool
  heatlhCheckUrls : List String
deriving Repr, DecidableEq

/-- connectionCount getter: size of the Map. -/
def TrackerState.connectionCount (t : TrackerState) : Nat :=
  t.connections.length

/-- The filter used by activeConnectionCount on one map entry's socket:
not $$idle and not $$isCheck. -/
def sockActive (socks : List SockData) (sockIdx : Nat) : Bool :=
  match socks[sockIdx]? with
  | some sd => !sd.idle && !sd.isCheck
  | none => false

/-- activeConnectionCount getter: entries of the Map whose socket is
neither idle nor a health check. -/
def TrackerState.activeConnectionCount (t : TrackerState) : Nat :=
  (t.connections.filter (fun e => sockActive t.sockets e.2)).length

/-- The $$idle flag of the socket referenced by a map entry. -/
def sockIdle (socks : List SockData) (sockIdx : Nat) : Bool :=
  match socks[sockIdx]? with
  | some sd => sd.idle
  | none => false

/-- isListening getter: forwards the server's listening flag. -/
def TrackerState.isListening (t : TrackerState) : Bool :=
  t.listening

/-- onConnection handler with the module-level nextId generator threaded
through: if the socket's $$id is falsy (undefined, or the id 0 handed out
for the very first connection), assign getNextId(), set $$idle = true and
insert into the Map; otherwise do nothing.  Returns the updated tracker
and generator. -/
def onConnection (t : TrackerState) (nextId sockIdx : Nat) :
    TrackerState × Nat :=
  match t.sockets[sockIdx]? with
  | none => (t, nextId)
  | some sd =>
    if truthyId sd.id then
      (t, nextId)
    else
      let sd1 := { sd with id := some nextId, idle := true }
      ({ t with
          sockets := t.sockets.set sockIdx sd1,
          connections := mapSet t.connections nextId sockIdx },
       nextId + 1)

/-- isValidCheck: the request URL is one of the configured health check
URLs. -/
def TrackerState.isValidCheck (t : TrackerState) (url : String) : Bool :=
  t.heatlhCheckUrls.contains url

/-- Observable actions taken on the response object by onRequest. -/
structure ResponseLog where
  statusCode : Option Nat := none
  statusMessage : Option String := none
  headers : List (String × String) := []
  body : Option String := none
  endCallbackDestroysSock : Bool := false
  finishListenerRegistered : Bool := false
  warned : Bool := false
deriving Repr, DecidableEq

/-- onRequest handler.  It first runs onConnection on the request's
socket, then looks the socket up again through the Map (the source uses
the value returned by c.get).  If the lookup fails it logs a warning and
returns.  It sets $$isCheck from the URL; during shutdown a non health
check request is answered with writeHead(503, 'Closing') (status message,
no headers are set), body 'Closing', a flush callback that destroys the
socket, and the map entry is deleted immediately; otherwise $$idle is set
to false and a finish listener is registered. -/
def onRequest (t : TrackerState) (nextId sockIdx : Nat) (url : String) :
    TrackerState × Nat × ResponseLog :=
  let p := onConnection t nextId sockIdx
  let t1 := p.1
  match t1.sockets[sockIdx]? with
  | none => (t1, p.2, { warned := true })
  | some sd =>
    match sd.id with
    | none => (t1, p.2, { warned := true })
    | some cid =>
      match mapGet t1.connections cid with
      | none => (t1, p.2, { warned := true })
      | some j =>
        match t1.sockets[j]? with
        | none => (t1, p.2, { warned := true })
        | some sdj =>
          let isCheck := t1.isValidCheck url
          let sdj1 := { sdj with isCheck := isCheck }
          let t2 := { t1 with sockets := t1.sockets.set j sdj1 }
          if t2.isShuttingDown && !isCheck then
            let t3 := { t2 with
              connections := mapDelete t2.connections (sdj1.id.getD 0) }
            (t3, p.2,
             { statusCode := some 503, statusMessage := some "Closing",
               headers := [], body := some "Closing",
               endCallbackDestroysSock := true })
          else
            let t3 := { t2 with
              sockets := t2.sockets.set j { sdj1 with idle := false } }
            (t3, p.2, { finishListenerRegistered := true })

/-- The response finish listener registered by onRequest: set $$idle back
to true and, if shutting down, destroy the socket. -/
def onResponseFinish (t : TrackerState) (sockIdx : Nat) : TrackerState :=
  match t.sockets[sockIdx]? with
  | none => t
  | some sd =>
    let sd1 := { sd with idle := true }
    let sd2 := if t.isShuttingDown then { sd1 with destroyed := true } else sd1
    { t with sockets := t.sockets.set sockIdx sd2 }

/-- The loop in requestShutdown: iterate the Map entries in order; an
entry whose socket is idle has its socket destroyed and is removed from
the Map; other entries are kept. -/
def requestShutdownLoop :
    List (Nat × Nat) → List SockData → List (Nat × Nat) × List SockData
  | [], socks => ([], socks)
  | e :: rest, socks =>
    match socks[e.2]? with
    | some sd =>
      if sd.idle then
        requestShutdownLoop rest (socks.set e.2 { sd with destroyed := true })
      else
        let r := requestShutdownLoop rest socks
        (e :: r.1, r.2)
    | none =>
      let r := requestShutdownLoop rest socks
      (e :: r.1, r.2)

/-- requestShutdown: set isShuttingDown and destroy plus remove every idle
connection. -/
def TrackerState.requestShutdown (t : TrackerState) : TrackerState :=
  let r := requestShutdownLoop t.connections t.sockets
  { t with isShuttingDown := true, connections := r.1, sockets := r.2 }

/-- The loop in forceClose: destroy the socket of every remaining map
entry. -/
def destroyAllLoop :
    List (Nat × Nat) → List SockData → List SockData
  | [], socks => socks
  | e :: rest, socks =>
    match socks[e.2]? with
    | some sd => destroyAllLoop rest (socks.set e.2 { sd with destroyed := true })
    | none => destroyAllLoop rest socks

/-- forceClose: stop the server listening if it still is, set
isShuttingDown, destroy every remaining socket and clear the Map. -/
def TrackerState.forceClose (t : TrackerState) : TrackerState :=
  let t1 := if t.listening then { t with listening := false } else t
  { t1 with
      isShuttingDown := true,
      sockets := destroyAllLoop t1.connections t1.sockets,
      connections := [] }

/-- Orchestrator module state from probes.ts.  One-shot timers are
modelled as pending flags consumed by fire events (phase2Pending is the
setTimeout scheduled by startShutdown, drainPollPending is
shutdownWatchTimeout, deadlinePending is the ClosingTimeout timer set in
shutdownPhase2).  transitions logs every (new, old) pair for which the
state change listener list was fanned out; shutdownCbRuns counts how many
times the registered shutdown callback list was invoked. -/
structure OrchState where
  phase : Phase
  shutdownRequested : Bool
  failCase : Option JsError
  intCalled : Bool
  trackers : List TrackerState
  phase2Pending : Bool
  drainPollPending : Bool
  deadlinePending : Bool
  transitions : List (Phase × Phase)
  shutdownCbRuns : Nat
deriving Repr, DecidableEq

/-- updatePhase: no-op when the phase is unchanged, otherwise set the new
phase and fan out to the state change listeners (recorded as one
transitions entry carrying (new, old)). -/
def updatePhase (s : OrchState) (newPhase : Phase) : OrchState :=
  if s.phase = newPhase then s
  else { s with
          phase := newPhase,
          transitions := s.transitions ++ [(newPhase, s.phase)] }

/-- isReady from probes.ts; the all-settled outcomes of the registered
ready checks are passed in as data.  Returns the boolean answer and the
post state (the only possible side effect is the Startup to Running
transition). -/
def isReady (s : OrchState) (readyCheckResults : List SettledBool) :
    Bool × OrchState :=
  if s.failCase.isSome || s.shutdownRequested then (false, s)
  else if s.trackers.length = 0 then (false, s)
  else
    let readyChecksPassed := readyCheckResults.all settledOk
    let httpStarted := s.trackers.all TrackerState.isListening
    if !readyChecksPassed || !httpStarted then (false, s)
    else if s.phase = Phase.Startup then (true, updatePhase s Phase.Running)
    else (true, s)

/-- checkReadiness from probes.ts, translated branch for branch. -/
def checkReadiness (s : OrchState) (readyCheckResults : List SettledBool) :
    ProbeCheckResult × OrchState :=
  if s.failCase.isSome || s.shutdownRequested then
    ({ healthy := false, message := "Service is closing", statusCode := 503 }, s)
  else if s.trackers.length = 0 then
    ({ healthy := false, message := "Server not ready", statusCode := 503 }, s)
  else
    let readyChecksPassed := readyCheckResults.all settledOk
    let httpStarted := s.trackers.all TrackerState.isListening
    if !readyChecksPassed then
      ({ healthy := false, message := "Ready check(s) failed", statusCode := 503 }, s)
    else if !httpStarted then
      ({ healthy := false, message := "HTTP server not ready", statusCode := 503 }, s)
    else if s.phase = Phase.Startup then
      ({ healthy := true, message := "ready", statusCode := 200 },
       updatePhase s Phase.Running)
    else
      ({ healthy := true, message := "ready", statusCode := 200 }, s)

/-- isHealthy: the failCase latch is unset. -/
def isHealthy (s : OrchState) : Bool :=
  !s.failCase.isSome

/-- checkLiveness from probes.ts. -/
def checkLiveness (s : OrchState) : ProbeCheckResult :=
  match s.failCase with
  | some e =>
    { healthy := false,
      message := "Unrecoverable error: " ++ e.message,
      statusCode := 503 }
  | none => { healthy := true, message := "alive", statusCode := 200 }

/-- setUnrecoverableError in production mode: store the error (in dev mode
the source exits the process instead, so there is no subsequent state). -/
def setUnrecoverableError (s : OrchState) (e : JsError) : OrchState :=
  { s with failCase := some e }

/-- startShutdown: set shutdownRequested, updatePhase(Phase1), then
schedule shutdownPhase2.  The source has no guard against repeated calls. -/
def startShutdown (s : OrchState) : OrchState :=
  let s1 := { s with shutdownRequested := true }
  let s2 := updatePhase s1 Phase.Phase1
  { s2 with phase2Pending := true }

/-- finishShutdown: cancel the pending drain poll (the deadline timer has
no stored handle and is not cancelled), updatePhase(Phase3), force close
every tracker, then run the whole registered shutdown callback list. -/
def finishShutdown (s : OrchState) : OrchState :=
  let s1 := { s with drainPollPending := false }
  let s2 := updatePhase s1 Phase.Phase3
  { s2 with
      trackers := s2.trackers.map TrackerState.forceClose,
      shutdownCbRuns := s2.shutdownCbRuns + 1 }

/-- shutdownPhase2: updatePhase(Phase2), request shutdown on every
tracker, schedule the drain poll and the hard ClosingTimeout deadline. -/
def shutdownPhase2 (s : OrchState) : OrchState :=
  let s1 := updatePhase s Phase.Phase2
  { s1 with
      trackers := s1.trackers.map TrackerState.requestShutdown,
      drainPollPending := true,
      deadlinePending := true }

/-- One drain poll tick (shutdownConnectionWatch): consume the pending
timer, sum activeConnectionCount over the trackers, and either call
finishShutdown (no active connections and no failing user shutdown check)
or reschedule itself.  The all-settled outcome of the user shutdown ready
checks is passed in as the userCheckFailed flag. -/
def drainPoll (s : OrchState) (userCheckFailed : Bool) : OrchState :=
  let s1 := { s with drainPollPending := false }
  let active := (s1.trackers.map TrackerState.activeConnectionCount).sum
  if active = 0 && !userCheckFailed then finishShutdown s1
  else { s1 with drainPollPending := true }

/-- Events that drive the orchestrator: the two probe evaluations, a call
to startShutdown, the firing of the three one-shot timers (each a no-op
when its timer is not pending), and setUnrecoverableError. -/
inductive Event where
  | probeIsReady (readyCheckResults : List SettledBool)
  | probeCheckReadiness (readyCheckResults : List SettledBool)
  | startShutdown
  | firePhase2
  | fireDrainPoll (userCheckFailed : Bool)
  | fireDeadline
  | setFault (message : String)
deriving Repr, DecidableEq

/-- Step function of the orchestrator. -/
def step (s : OrchState) : Event → OrchState
  | .probeIsReady cr => (isReady s cr).2
  | .probeCheckReadiness cr => (checkReadiness s cr).2
  | .startShutdown => startShutdown s
  | .firePhase2 =>
    if s.phase2Pending then shutdownPhase2 { s with phase2Pending := false }
    else s
  | .fireDrainPoll f =>
    if s.drainPollPending then drainPoll s f else s
  | .fireDeadline =>
    if s.deadlinePending then finishShutdown { s with deadlinePending := false }
    else s
  | .setFault msg => setUnrecoverableError s ⟨msg⟩

/-- Run a sequence of events. -/
def run (s : OrchState) : List Event → OrchState
  | [] => s
  | e :: rest => run (step s e) rest

/-- Result of delivering SIGTERM: either the process exits with a code, or
execution continues in a new state. -/
inductive SigResult where
  | exited (code : Int)
  | continued (s : OrchState)
deriving Repr, DecidableEq

/-- The SIGTERM handler in probes.ts: on a repeated signal it warns and
force-exits with code -127 (process.exit does not return, so startShutdown
is not reached); on the first signal it runs startShutdown and latches
intCalled. -/
def sigtermHandler (s : OrchState) : SigResult :=
  if s.intCalled then .exited (-127)
  else .continued { startShutdown s with intCalled := true }

/-- The initial orchestrator state: phase Startup, no fault, no shutdown
requested, no trackers registered, no timers pending. -/
def initOrch : OrchState :=
  { phase := .Startup, shutdownRequested := false, failCase := none,
    intCalled := false, trackers := [], phase2Pending := false,
    drainPollPending := false, deadlinePending := false,
    transitions := [], shutdownCbRuns := 0 }

/-- Reachability invariant of the step system: before shutdown is
requested the phase is Startup or Running and no shutdown timer is
pending, and while the phase 2 timer is pending the phase is Phase1 and
the drain timers are not yet scheduled. -/
def orchInv (s : OrchState) : Prop :=
  (s.shutdownRequested = false →
    (s.phase = Phase.Startup ∨ s.phase = Phase.Running)
    ∧ s.phase2Pending = false
    ∧ s.drainPollPending = false
    ∧ s.deadlinePending = false)
  ∧ (s.phase2Pending = true →
    s.phase = Phase.Phase1
    ∧ s.drainPollPending = false
    ∧ s.deadlinePending = false)

instance (s : OrchState) : Decidable (orchInv s) := by
  unfold orchInv
  infer_instance

theorem updatePhase_shutdownRequested (s : OrchState) (p : Phase) :
    (updatePhase s p).shutdownRequested = s.shutdownRequested := by
  unfold updatePhase; split <;> rfl

theorem updatePhase_failCase (s : OrchState) (p : Phase) :
    (updatePhase s p).failCase = s.failCase := by
  unfold updatePhase; split <;> rfl

theorem updatePhase_intCalled (s : OrchState) (p : Phase) :
    (updatePhase s p).intCalled = s.intCalled := by
  unfold updatePhase; split <;> rfl

theorem updatePhase_phase2Pending (s : OrchState) (p : Phase) :
    (updatePhase s p).phase2Pending = s.phase2Pending := by
  unfold updatePhase; split <;> rfl

theorem updatePhase_drainPollPending (s : OrchState) (p : Phase) :
    (updatePhase s p).drainPollPending = s.drainPollPending := by
  unfold updatePhase; split <;> rfl

theorem updatePhase_deadlinePending (s : OrchState) (p : Phase) :
    (updatePhase s p).deadlinePending = s.deadlinePending := by
  unfold updatePhase; split <;> rfl

theorem updatePhase_trackers (s : OrchState) (p : Phase) :
    (updatePhase s p).trackers = s.trackers := by
  unfold updatePhase; split <;> rfl

theorem updatePhase_shutdownCbRuns (s : OrchState) (p : Phase) :
    (updatePhase s p).shutdownCbRuns = s.shutdownCbRuns := by
  unfold updatePhase; split <;> rfl

theorem step_shutdownRequested_mono (s : OrchState) (e : Event)
    (h : s.shutdownRequested = true) :
    (step s e).shutdownRequested = true := by
  cases e with
  | probeIsReady cr => simp [step, isReady, h]
  | probeCheckReadiness cr => simp [step, checkReadiness, h]
  | startShutdown => simp [step, startShutdown, updatePhase_shutdownRequested]
  | firePhase2 =>
    simp only [step]
    split
    · simp [shutdownPhase2, updatePhase_shutdownRequested, h]
    · exact h
  | fireDrainPoll f =>
    simp only [step]
    split
    · simp only [drainPoll]
      split
      · simp [finishShutdown, updatePhase_shutdownRequested, h]
      · exact h
    · exact h
  | fireDeadline =>
    simp only [step]
    split
    · simp [finishShutdown, updatePhase_shutdownRequested, h]
    · exact h
  | setFault msg => simp [step, setUnrecoverableError, h]

theorem step_failCase_isSome (s : OrchState) (e : Event)
    (h : s.failCase.isSome = true) :
    (step s e).failCase.isSome = true := by
  cases e with
  | probeIsReady cr => simp [step, isReady, h]
  | probeCheckReadiness cr => simp [step, checkReadiness, h]
  | startShutdown => simp [step, startShutdown, updatePhase_failCase, h]
  | firePhase2 =>
    simp only [step]
    split
    · simp [shutdownPhase2, updatePhase_failCase, h]
    · exact h
  | fireDrainPoll f =>
    simp only [step]
    split
    · simp only [drainPoll]
      split
      · simp [finishShutdown, updatePhase_failCase, h]
      · exact h
    · exact h
  | fireDeadline =>
    simp only [step]
    split
    · simp [finishShutdown, updatePhase_failCase, h]
    · exact h
  | setFault msg => simp [step, setUnrecoverableError]

/-- Readiness decision written out exactly as claim C3 words it: a fixed
decision list evaluated in order, where the ready checks pass precisely
when every settled result is fulfilled with value exactly true, and the
listening test fails when some registered server is not listening. -/
def checkReadinessSpec (s : OrchState) (readyCheckResults : List SettledBool) :
    ProbeCheckResult × OrchState :=
  if s.failCase.isSome || s.shutdownRequested then
    ({ healthy := false, message := "Service is closing", statusCode := 503 }, s)
  else if s.trackers.isEmpty then
    ({ healthy := false, message := "Server not ready", statusCode := 503 }, s)
  else if readyCheckResults.all (fun r =>
      match r with
      | SettledBool.fulfilled true => true
      | _ => false) then
    if s.trackers.any (fun t => !t.isListening) then
      ({ healthy := false, message := "HTTP server not ready", statusCode := 503 }, s)
    else
      ({ healthy := true, message := "ready", statusCode := 200 },
       if s.phase = Phase.Startup then updatePhase s Phase.Running else s)
  else
    ({ healthy := false, message := "Ready check(s) failed", statusCode := 503 }, s)

theorem settledOk_eq_exactlyTrue (r : SettledBool) :
    settledOk r = (match r with
      | SettledBool.fulfilled true => true
      | _ => false) := by
  cases r with
  | fulfilled v => cases v <;> rfl
  | rejected => rfl

theorem trackers_any_not_listening (l : List TrackerState) :
    l.any (fun t => !t.isListening) = !l.all TrackerState.isListening := by
  induction l with
  | nil => rfl
  | cons a l ih => simp [List.any_cons, List.all_cons, ih, Bool.not_and]

theorem trackers_length_zero_iff_isEmpty (l : List TrackerState) :
    l.length = 0 ↔ l.isEmpty = true := by
  cases l <;> simp

/-- Claim C3: checkReadiness returns exactly one of the canonical results,
decided in the claimed order (fault or shutdown requested, then no
registered server, then the all-settled ready checks passing iff every
result is fulfilled with value exactly true, then some server not
listening, else ready with the Startup to Running side transition); the
source function agrees with that decision list on result and post state
for every orchestrator state and every outcome of the user checks. -/
theorem checkReadiness_matches_decision_list (s : OrchState)
    (cr : List SettledBool) :
    checkReadiness s cr = checkReadinessSpec s cr := by
  have hall : cr.all settledOk
      = cr.all (fun r => match r with
          | SettledBool.fulfilled true => true
          | _ => false) :=
    congrArg cr.all (funext settledOk_eq_exactlyTrue)
  cases h1 : (s.failCase.isSome || s.shutdownRequested) with
  | true => simp [checkReadiness, checkReadinessSpec, h1]
  | false =>
    cases h2 : s.trackers.isEmpty with
    | true =>
      have h2l : s.trackers.length = 0 :=
        (trackers_length_zero_iff_isEmpty s.trackers).mpr h2
      simp [checkReadiness, checkReadinessSpec, h1, h2, h2l]
    | false =>
      have h2l : ¬ s.trackers.length = 0 := by
        intro hh
        rw [(trackers_length_zero_iff_isEmpty s.trackers).mp hh] at h2
        exact absurd h2 (by simp)
      cases h3 : cr.all settledOk with
      | false =>
        simp [checkReadiness, checkReadinessSpec, h1, h2, h2l, ← hall, h3]
      | true =>
        cases h4 : s.trackers.all TrackerState.isListening with
        | false =>
          simp [checkReadiness, checkReadinessSpec, h1, h2, h2l, ← hall, h3,
                trackers_any_not_listening, h4]
        | true =>
          by_cases h5 : s.phase = Phase.Startup <;>
            simp [checkReadiness, checkReadinessSpec, h1, h2, h2l, ← hall, h3,
                  trackers_any_not_listening, h4, h5]

/-- Claim C7: isHealthy is true exactly when no unrecoverable fault is
set; with a fault stored, isHealthy is false and checkLiveness answers 503
with message "Unrecoverable error: " plus the fault's message; without a
fault checkLiveness answers 200 "alive"; and the fault is never cleared by
any later operation, so every subsequent checkLiveness still answers
503. -/
theorem liveness_latch (s : OrchState) (e : JsError) (ev : Event)
    (h : s.failCase = some e) :
    isHealthy s = false
    ∧ checkLiveness s =
        { healthy := false,
          message := "Unrecoverable error: " ++ e.message,
          statusCode := 503 }
    ∧ (∀ s2 : OrchState, isHealthy s2 = !s2.failCase.isSome)
    ∧ (∀ s2 : OrchState, s2.failCase = none →
        checkLiveness s2 = { healthy := true, message := "alive", statusCode := 200 })
    ∧ (step s ev).failCase.isSome = true
    ∧ (checkLiveness (step s ev)).statusCode = 503 := by
  have hsome : (step s ev).failCase.isSome = true :=
    step_failCase_isSome s ev (by simp [h])
  refine ⟨by simp [isHealthy, h], by simp [checkLiveness, h],
          fun s2 => rfl, fun s2 h2 => by simp [checkLiveness, h2], hsome, ?_⟩
  cases h3 : (step s ev).failCase with
  | none => rw [h3] at hsome; simp at hsome
  | some e2 => simp [checkLiveness, h3]

def livenessDemoState : OrchState :=
  { initOrch with failCase := some ⟨"db down"⟩ }

theorem liveness_latch_witness :
    livenessDemoState.failCase = some ⟨"db down"⟩
    ∧ checkLiveness livenessDemoState =
        { healthy := false,
          message := "Unrecoverable error: db down",
          statusCode := 503 }
    ∧ (checkLiveness (step livenessDemoState Event.fireDeadline)).statusCode = 503 := by
  refine ⟨rfl, ?_, ?_⟩
  · exact (liveness_latch livenessDemoState ⟨"db down"⟩ Event.fireDeadline rfl).2.1
  · exact (liveness_latch livenessDemoState ⟨"db down"⟩ Event.fireDeadline rfl).2.2.2.2.2

/-- Claim C2: once shutdownRequested is set, isReady answers false and
checkReadiness answers 503 "Service is closing" whatever the phase,
trackers and user check outcomes are, the state is left unchanged by both
probes, and no operation ever clears shutdownRequested. -/
theorem readiness_shutdown_latch (s : OrchState) (cr : List SettledBool)
    (ev : Event) (h : s.shutdownRequested = true) :
    isReady s cr = (false, s)
    ∧ checkReadiness s cr =
        ({ healthy := false, message := "Service is closing", statusCode := 503 }, s)
    ∧ (step s ev).shutdownRequested = true := by
  refine ⟨by simp [isReady, h], by simp [checkReadiness, h],
          step_shutdownRequested_mono s ev h⟩

def shutdownDemoState : OrchState :=
  { initOrch with
      phase := Phase.Phase1, shutdownRequested := true, phase2Pending := true,
      trackers := [{ isShuttingDown := false, connections := [],
                     sockets := [], listening := true, heatlhCheckUrls := [] }] }

theorem readiness_shutdown_latch_witness :
    shutdownDemoState.shutdownRequested = true
    ∧ isReady shutdownDemoState [SettledBool.fulfilled true] = (false, shutdownDemoState)
    ∧ (step shutdownDemoState (Event.fireDrainPoll false)).shutdownRequested = true := by
  refine ⟨rfl, ?_, ?_⟩
  · exact (readiness_shutdown_latch shutdownDemoState [SettledBool.fulfilled true]
      (Event.fireDrainPoll false) rfl).1
  · exact (readiness_shutdown_latch shutdownDemoState [SettledBool.fulfilled true]
      (Event.fireDrainPoll false) rfl).2.2

theorem updatePhase_phase (s : OrchState) (p : Phase) :
    (updatePhase s p).phase = p := by
  unfold updatePhase
  split
  · assumption
  · rfl

theorem isReady_snd_cases (s : OrchState) (cr : List SettledBool) :
    (isReady s cr).2 = s
    ∨ ((isReady s cr).2 = updatePhase s Phase.Running
        ∧ s.phase = Phase.Startup ∧ s.shutdownRequested = false) := by
  unfold isReady
  by_cases h1 : (s.failCase.isSome || s.shutdownRequested) = true
  · left; simp [h1]
  · by_cases h2 : s.trackers.length = 0
    · left; simp [h1, h2]
    · by_cases h3 : (!(cr.all settledOk) || !(s.trackers.all TrackerState.isListening)) = true
      · left; simp [h1, h2, h3]
      · by_cases h5 : s.phase = Phase.Startup
        · right
          refine ⟨by simp [h1, h2, h3, h5], h5, ?_⟩
          simp only [Bool.or_eq_true, not_or, Bool.not_eq_true] at h1
          exact h1.2
        · left; simp [h1, h2, h3, h5]

theorem checkReadiness_snd_cases (s : OrchState) (cr : List SettledBool) :
    (checkReadiness s cr).2 = s
    ∨ ((checkReadiness s cr).2 = updatePhase s Phase.Running
        ∧ s.phase = Phase.Startup ∧ s.shutdownRequested = false) := by
  unfold checkReadiness
  by_cases h1 : (s.failCase.isSome || s.shutdownRequested) = true
  · left; simp [h1]
  · by_cases h2 : s.trackers.length = 0
    · left; simp [h1, h2]
    · by_cases h3 : (!(cr.all settledOk)) = true
      · left; simp [h1, h2, h3]
      · by_cases h4 : (!(s.trackers.all TrackerState.isListening)) = true
        · left; simp [h1, h2, h3, h4]
        · by_cases h5 : s.phase = Phase.Startup
          · right
            refine ⟨by simp [h1, h2, h3, h4, h5], h5, ?_⟩
            simp only [Bool.or_eq_true, not_or, Bool.not_eq_true] at h1
            exact h1.2
          · left; simp [h1, h2, h3, h4, h5]

theorem drainPoll_eq (s : OrchState) (f : Bool) :
    drainPoll s f =
      if (decide ((s.trackers.map TrackerState.activeConnectionCount).sum = 0) && !f) = true
      then finishShutdown { s with drainPollPending := false }
      else { s with drainPollPending := true } := rfl

theorem step_phase_mono (s : OrchState) (e : Event) (hInv : orchInv s)
    (hg : e = Event.startShutdown → s.shutdownRequested = false) :
    Phase.idx s.phase ≤ Phase.idx (step s e).phase ∧ orchInv (step s e) := by
  obtain ⟨hA, hB⟩ := hInv
  cases e with
  | probeIsReady cr =>
    show Phase.idx s.phase ≤ Phase.idx (isReady s cr).2.phase ∧ orchInv (isReady s cr).2
    rcases isReady_snd_cases s cr with h | ⟨h, hst, hsr⟩
    · rw [h]; exact ⟨le_refl _, hA, hB⟩
    · rw [h]
      obtain ⟨hph, hp2, hdp, hdl⟩ := hA hsr
      constructor
      · rw [updatePhase_phase, hst]; simp [Phase.idx]
      · constructor
        · intro _
          refine ⟨Or.inr (updatePhase_phase _ _), ?_, ?_, ?_⟩ <;>
            simp [updatePhase_phase2Pending, updatePhase_drainPollPending,
                  updatePhase_deadlinePending, hp2, hdp, hdl]
        · intro hp2t
          rw [updatePhase_phase2Pending] at hp2t
          rw [hp2t] at hp2
          exact absurd hp2 (by simp)
  | probeCheckReadiness cr =>
    show Phase.idx s.phase ≤ Phase.idx (checkReadiness s cr).2.phase
      ∧ orchInv (checkReadiness s cr).2
    rcases checkReadiness_snd_cases s cr with h | ⟨h, hst, hsr⟩
    · rw [h]; exact ⟨le_refl _, hA, hB⟩
    · rw [h]
      obtain ⟨hph, hp2, hdp, hdl⟩ := hA hsr
      constructor
      · rw [updatePhase_phase, hst]; simp [Phase.idx]
      · constructor
        · intro _
          refine ⟨Or.inr (updatePhase_phase _ _), ?_, ?_, ?_⟩ <;>
            simp [updatePhase_phase2Pending, updatePhase_drainPollPending,
                  updatePhase_deadlinePending, hp2, hdp, hdl]
        · intro hp2t
          rw [updatePhase_phase2Pending] at hp2t
          rw [hp2t] at hp2
          exact absurd hp2 (by simp)
  | startShutdown =>
    have hsr := hg rfl
    obtain ⟨hph, hp2, hdp, hdl⟩ := hA hsr
    show Phase.idx s.phase ≤ Phase.idx (startShutdown s).phase ∧ orchInv (startShutdown s)
    constructor
    · have hph1 : (startShutdown s).phase = Phase.Phase1 := by
        simp [startShutdown, updatePhase_phase]
      rw [hph1]
      rcases hph with h | h <;> rw [h] <;> simp [Phase.idx]
    · constructor
      · intro hc
        have hx : (startShutdown s).shutdownRequested = true := by
          simp [startShutdown, updatePhase_shutdownRequested]
        rw [hx] at hc
        exact absurd hc (by simp)
      · intro _
        refine ⟨by simp [startShutdown, updatePhase_phase], ?_, ?_⟩ <;>
          simp [startShutdown, updatePhase_drainPollPending,
                updatePhase_deadlinePending, hdp, hdl]
  | firePhase2 =>
    show Phase.idx s.phase ≤ Phase.idx (step s Event.firePhase2).phase
      ∧ orchInv (step s Event.firePhase2)
    simp only [step]
    split
    · rename_i hp2t
      obtain ⟨hph, hdp, hdl⟩ := hB hp2t
      have hsr : s.shutdownRequested = true := by
        cases hsr : s.shutdownRequested
        · obtain ⟨_, hp2f, _, _⟩ := hA hsr
          rw [hp2f] at hp2t
          exact absurd hp2t (by simp)
        · rfl
      constructor
      · have hph2 : (shutdownPhase2 { s with phase2Pending := false }).phase = Phase.Phase2 := by
          simp [shutdownPhase2, updatePhase_phase]
        rw [hph2, hph]
        simp [Phase.idx]
      · constructor
        · intro hc
          have hx : (shutdownPhase2 { s with phase2Pending := false }).shutdownRequested
              = s.shutdownRequested := by
            simp [shutdownPhase2, updatePhase_shutdownRequested]
          rw [hx, hsr] at hc
          exact absurd hc (by simp)
        · intro hc
          have hx : (shutdownPhase2 { s with phase2Pending := false }).phase2Pending = false := by
            simp [shutdownPhase2, updatePhase_phase2Pending]
          rw [hx] at hc
          exact absurd hc (by simp)
    · exact ⟨le_refl _, hA, hB⟩
  | fireDrainPoll f =>
    show Phase.idx s.phase ≤ Phase.idx (step s (Event.fireDrainPoll f)).phase
      ∧ orchInv (step s (Event.fireDrainPoll f))
    simp only [step]
    split
    · rename_i hdpt
      have hsr : s.shutdownRequested = true := by
        cases hsr : s.shutdownRequested
        · obtain ⟨_, _, hdpf, _⟩ := hA hsr
          rw [hdpf] at hdpt
          exact absurd hdpt (by simp)
        · rfl
      have hp2f : s.phase2Pending = false := by
        cases hp2 : s.phase2Pending
        · rfl
        · obtain ⟨_, hdpf, _⟩ := hB hp2
          rw [hdpf] at hdpt
          exact absurd hdpt (by simp)
      rw [drainPoll_eq]
      split
      · constructor
        · have hph3 : (finishShutdown { s with drainPollPending := false }).phase
              = Phase.Phase3 := by
            simp [finishShutdown, updatePhase_phase]
          rw [hph3]
          cases s.phase <;> simp [Phase.idx]
        · constructor
          · intro hc
            have hx : (finishShutdown { s with drainPollPending := false }).shutdownRequested
                = s.shutdownRequested := by
              simp [finishShutdown, updatePhase_shutdownRequested]
            rw [hx, hsr] at hc
            exact absurd hc (by simp)
          · intro hc
            have hx : (finishShutdown { s with drainPollPending := false }).phase2Pending
                = s.phase2Pending := by
              simp [finishShutdown, updatePhase_phase2Pending]
            rw [hx, hp2f] at hc
            exact absurd hc (by simp)
      · constructor
        · exact le_refl _
        · constructor
          · intro hc
            have hx : ({ s with drainPollPending := true } : OrchState).shutdownRequested
                = s.shutdownRequested := rfl
            rw [hx, hsr] at hc
            exact absurd hc (by simp)
          · intro hc
            have hx : ({ s with drainPollPending := true } : OrchState).phase2Pending
                = s.phase2Pending := rfl
            rw [hx, hp2f] at hc
            exact absurd hc (by simp)
    · exact ⟨le_refl _, hA, hB⟩
  | fireDeadline =>
    show Phase.idx s.phase ≤ Phase.idx (step s Event.fireDeadline).phase
      ∧ orchInv (step s Event.fireDeadline)
    simp only [step]
    split
    · rename_i hdlt
      have hsr : s.shutdownRequested = true := by
        cases hsr : s.shutdownRequested
        · obtain ⟨_, _, _, hdlf⟩ := hA hsr
          rw [hdlf] at hdlt
          exact absurd hdlt (by simp)
        · rfl
      have hp2f : s.phase2Pending = false := by
        cases hp2 : s.phase2Pending
        · rfl
        · obtain ⟨_, _, hdlf⟩ := hB hp2
          rw [hdlf] at hdlt
          exact absurd hdlt (by simp)
      constructor
      · have hph3 : (finishShutdown { s with deadlinePending := false }).phase
            = Phase.Phase3 := by
          simp [finishShutdown, updatePhase_phase]
        rw [hph3]
        cases s.phase <;> simp [Phase.idx]
      · constructor
        · intro hc
          have hx : (finishShutdown { s with deadlinePending := false }).shutdownRequested
              = s.shutdownRequested := by
            simp [finishShutdown, updatePhase_shutdownRequested]
          rw [hx, hsr] at hc
          exact absurd hc (by simp)
        · intro hc
          have hx : (finishShutdown { s with deadlinePending := false }).phase2Pending
              = s.phase2Pending := by
            simp [finishShutdown, updatePhase_phase2Pending]
          rw [hx, hp2f] at hc
          exact absurd hc (by simp)
    · exact ⟨le_refl _, hA, hB⟩
  | setFault msg =>
    exact ⟨le_refl _, hA, hB⟩

theorem step_shutdownRequested_eq (s : OrchState) (e : Event)
    (h : e ≠ Event.startShutdown) :
    (step s e).shutdownRequested = s.shutdownRequested := by
  cases e with
  | startShutdown => exact absurd rfl h
  | probeIsReady cr =>
    show (isReady s cr).2.shutdownRequested = s.shutdownRequested
    rcases isReady_snd_cases s cr with hc | ⟨hc, _, _⟩ <;>
      first
      | (rw [hc]; simp [updatePhase_shutdownRequested])
      | rw [hc]
  | probeCheckReadiness cr =>
    show (checkReadiness s cr).2.shutdownRequested = s.shutdownRequested
    rcases checkReadiness_snd_cases s cr with hc | ⟨hc, _, _⟩ <;>
      first
      | (rw [hc]; simp [updatePhase_shutdownRequested])
      | rw [hc]
  | firePhase2 =>
    simp only [step]
    split
    · simp [shutdownPhase2, updatePhase_shutdownRequested]
    · rfl
  | fireDrainPoll f =>
    simp only [step]
    split
    · rw [drainPoll_eq]
      split
      · simp [finishShutdown, updatePhase_shutdownRequested]
      · rfl
    · rfl
  | fireDeadline =>
    simp only [step]
    split
    · simp [finishShutdown, updatePhase_shutdownRequested]
    · rfl
  | setFault msg => rfl

/-- Claim C1 (amended): along every event sequence in which startShutdown
is invoked at most once in total (counting an initial state that already
has shutdownRequested set), the phase only moves forward in enum order, so
every observer sees a monotonic sequence of phase values; the guard is
necessary because a repeated startShutdown while in Phase 2 or 3 moves the
phase back to Phase1 (see the companion regression theorem). -/
theorem phase_monotonic_single_startShutdown (events : List Event)
    (s : OrchState) (hInv : orchInv s)
    (hOnce : events.count Event.startShutdown
        + (if s.shutdownRequested = true then 1 else 0) ≤ 1) :
    Phase.idx s.phase ≤ Phase.idx (run s events).phase
    ∧ orchInv (run s events) := by
  induction events generalizing s with
  | nil => exact ⟨le_refl _, hInv⟩
  | cons e rest ih =>
    have hg : e = Event.startShutdown → s.shutdownRequested = false := by
      intro he
      subst he
      cases hsr : s.shutdownRequested
      · rfl
      · rw [hsr, if_pos rfl, List.count_cons_self] at hOnce
        omega
    obtain ⟨hmono, hinv2⟩ := step_phase_mono s e hInv hg
    have hOnce2 : rest.count Event.startShutdown
        + (if (step s e).shutdownRequested = true then 1 else 0) ≤ 1 := by
      by_cases he : e = Event.startShutdown
      · subst he
        rw [hg rfl, if_neg (by simp), List.count_cons_self] at hOnce
        have hstep : (step s Event.startShutdown).shutdownRequested = true := by
          simp [step, startShutdown, updatePhase_shutdownRequested]
        rw [hstep, if_pos rfl]
        omega
      · rw [step_shutdownRequested_eq s e he]
        rw [List.count_cons_of_ne (Ne.symm he)] at hOnce
        exact hOnce
    obtain ⟨h1, h2⟩ := ih (step s e) hinv2 hOnce2
    exact ⟨le_trans hmono h1, h2⟩

/-- Claim C1 counterexample: from the initial state, run startShutdown,
let the Phase 2 timer fire (phase is now Phase2 = Draining), then call
startShutdown a second time: the phase moves backward to Phase1, so the
phase variable is not non-decreasing under a repeated startShutdown. -/
theorem startShutdown_phase_regression :
    (run initOrch [Event.startShutdown, Event.firePhase2]).phase = Phase.Phase2
    ∧ (run initOrch [Event.startShutdown, Event.firePhase2, Event.startShutdown]).phase
        = Phase.Phase1
    ∧ Phase.idx Phase.Phase1 < Phase.idx Phase.Phase2 := by
  refine ⟨rfl, rfl, by decide⟩

theorem phase_monotonic_single_startShutdown_witness :
    orchInv initOrch
    ∧ ([Event.startShutdown, Event.firePhase2, Event.fireDrainPoll false].count
        Event.startShutdown
        + (if initOrch.shutdownRequested = true then 1 else 0) ≤ 1)
    ∧ Phase.idx initOrch.phase
        ≤ Phase.idx (run initOrch
            [Event.startShutdown, Event.firePhase2, Event.fireDrainPoll false]).phase := by
  refine ⟨by decide, by decide, ?_⟩
  exact (phase_monotonic_single_startShutdown
    [Event.startShutdown, Event.firePhase2, Event.fireDrainPoll false]
    initOrch (by decide) (by decide)).1

theorem forceClose_idem (t : TrackerState) :
    (t.forceClose).forceClose = t.forceClose := by
  unfold TrackerState.forceClose
  cases hl : t.listening <;> simp [destroyAllLoop, hl]

theorem updatePhase_of_eq (s : OrchState) (p : Phase) (h : s.phase = p) :
    updatePhase s p = s := by
  unfold updatePhase
  rw [if_pos h]

theorem finishShutdown_drainPollPending (s : OrchState) :
    (finishShutdown s).drainPollPending = false := by
  simp [finishShutdown, updatePhase_drainPollPending]

theorem finishShutdown_phase (s : OrchState) :
    (finishShutdown s).phase = Phase.Phase3 := by
  simp [finishShutdown, updatePhase_phase]

theorem finishShutdown_trackers (s : OrchState) :
    (finishShutdown s).trackers = s.trackers.map TrackerState.forceClose := by
  simp [finishShutdown, updatePhase_trackers]

theorem set_drainPollPending_of_false (x : OrchState)
    (h : x.drainPollPending = false) :
    ({ x with drainPollPending := false } : OrchState) = x := by
  cases x
  simp_all

/-- Claim C5 (amended): a second call to finishShutdown fires the state
change listeners only once (the transition log is unchanged), force
closing the trackers again has no additional effect, and the drain poll
stays cancelled — but the registered shutdown callback list is run once
more per call, so after two calls every registered shutdownCallback has
been invoked twice, not once: the whole second-call effect is exactly one
extra run of the shutdown callbacks. -/
theorem finishShutdown_second_call (s : OrchState) :
    finishShutdown (finishShutdown s)
      = { finishShutdown s with
            shutdownCbRuns := (finishShutdown s).shutdownCbRuns + 1 } := by
  have hmap : (s.trackers.map TrackerState.forceClose).map TrackerState.forceClose
      = s.trackers.map TrackerState.forceClose := by
    rw [List.map_map]
    exact List.map_congr_left (fun a _ => forceClose_idem a)
  conv_lhs => rw [finishShutdown]
  rw [set_drainPollPending_of_false _ (finishShutdown_drainPollPending s)]
  rw [updatePhase_of_eq _ _ (finishShutdown_phase s)]
  rw [finishShutdown_trackers, hmap, ← finishShutdown_trackers]

/-- Claim C5 counterexample: from the initial state let the drain poll
finish the shutdown (one run of the shutdown callbacks), then let the hard
deadline timer fire: finishShutdown runs a second time and the registered
shutdown callback list is invoked again, so each shutdownCallback has been
invoked twice in total, not once. -/
theorem finishShutdown_reruns_callbacks :
    (run initOrch [Event.startShutdown, Event.firePhase2,
        Event.fireDrainPoll false]).shutdownCbRuns = 1
    ∧ (run initOrch [Event.startShutdown, Event.firePhase2,
        Event.fireDrainPoll false, Event.fireDeadline]).shutdownCbRuns = 2 :=
  ⟨rfl, rfl⟩

/-- Claim C8 (amended): the repeated-invocation guard lives in the SIGTERM
handler, keyed on the intCalled latch: a second delivered termination
signal makes the handler exit the process immediately with code -127, and
startShutdown is not reached again, so no further phase transition is
produced. -/
theorem second_sigterm_exits (s : OrchState) (h : s.intCalled = true) :
    sigtermHandler s = SigResult.exited (-127) := by
  unfold sigtermHandler
  rw [if_pos h]

def sigtermDemoState : OrchState :=
  { initOrch with intCalled := true, shutdownRequested := true, phase := Phase.Phase1 }

theorem second_sigterm_exits_witness :
    sigtermDemoState.intCalled = true
    ∧ sigtermHandler sigtermDemoState = SigResult.exited (-127) :=
  ⟨rfl, second_sigterm_exits sigtermDemoState rfl⟩

/-- Claim C8 counterexample: the exported startShutdown function itself
has no guard: invoking it a second time directly (not through the signal
handler) does not terminate the process (it is a total state transformer;
the only exit path in the model is sigtermHandler) and, once the phase has
advanced to Phase2, it fires a second Phase1 transition through the state
change listeners. -/
theorem startShutdown_second_call_no_exit :
    (run initOrch [Event.startShutdown, Event.firePhase2]).transitions.countP
        (fun tr => tr.1 == Phase.Phase1) = 1
    ∧ (run initOrch [Event.startShutdown, Event.firePhase2,
        Event.startShutdown]).transitions.countP
        (fun tr => tr.1 == Phase.Phase1) = 2 := by
  refine ⟨by decide, by decide⟩

def shutdownTracker : TrackerState :=
  { isShuttingDown := true,
    connections := [(1, 0)],
    sockets := [{ id := some 1, idle := true, isCheck := false, destroyed := false }],
    listening := true,
    heatlhCheckUrls := ["/api/probe/test", "/api/probe/ready", "/api/probe/live"] }

/-- Claim C4 evaluated at the failing input: a non health check request
("/api/users") arriving while the tracker is shutting down is answered
with writeHead(503, 'Closing') and body "Closing", the flush callback
destroys the socket (not yet destroyed when onRequest returns), and the
connection record is removed from the Map immediately — but the response
headers are empty: no Connection close (hop-close) header is ever set,
although the claim, the spec and the repository's own unit test (the
serverTracker test "should reject non-health-check requests during
shutdown" expects setHeader('Connection', 'close')) all require one. -/
theorem onRequest_closing_sets_no_header :
    (onRequest shutdownTracker 2 0 "/api/users").2.2 =
      { statusCode := some 503, statusMessage := some "Closing",
        headers := [], body := some "Closing",
        endCallbackDestroysSock := true, finishListenerRegistered := false,
        warned := false }
    ∧ (onRequest shutdownTracker 2 0 "/api/users").2.2.headers.contains
        ("Connection", "close") = false
    ∧ (onRequest shutdownTracker 2 0 "/api/users").1.connections = []
    ∧ ((onRequest shutdownTracker 2 0 "/api/users").1.sockets[0]?).map
        SockData.destroyed = some false := by
  refine ⟨by decide, by decide, by decide, by decide⟩

def freshTracker : TrackerState :=
  { isShuttingDown := false,
    connections := [],
    sockets := [{ id := none, idle := false, isCheck := false, destroyed := false }],
    listening := true,
    heatlhCheckUrls := [] }

/-- Claim C6 evaluated at the failing input: the very first socket tracked
by the module is assigned id 0 by getNextId; because the guard in
onConnection tests JavaScript truthiness of $$id and 0 is falsy, a
duplicate connection event for that socket re-assigns a fresh id 1 and
inserts a second Map entry, so connectionCount grows from 1 to 2 — the
duplicate event is not idempotent for the first generated id, although the
claim, the spec and the repository's own unit test ("should handle
duplicate connection events for same socket") require the id to stay and
the count to be unchanged. -/
theorem onConnection_duplicate_reassigns_id_zero :
    ((onConnection freshTracker 0 0).1.sockets[0]?).map SockData.id
        = some (some 0)
    ∧ (onConnection freshTracker 0 0).1.connectionCount = 1
    ∧ (onConnection freshTracker 0 0).2 = 1
    ∧ (((onConnection (onConnection freshTracker 0 0).1
          (onConnection freshTracker 0 0).2 0).1.sockets[0]?).map SockData.id
        = some (some 1))
    ∧ (onConnection (onConnection freshTracker 0 0).1
          (onConnection freshTracker 0 0).2 0).1.connectionCount = 2 := by
  refine ⟨by decide, by decide, by decide, by decide, by decide⟩

theorem getElem?_lt_length {α : Type} {l : List α} {i : Nat} {a : α}
    (h : l[i]? = some a) : i < l.length := by
  by_contra hlt
  push_neg at hlt
  rw [List.getElem?_eq_none hlt] at h
  exact Option.noConfusion h

theorem filter_erase_of_neg {α : Type} [BEq α] [LawfulBEq α] (p : α → Bool)
    (a : α) (l : List α) (h : p a = false) :
    (l.erase a).filter p = l.filter p := by
  induction l with
  | nil => rfl
  | cons b l ih =>
    by_cases hb : (b == a) = true
    · have hba : b = a := eq_of_beq hb
      subst hba
      rw [List.erase_cons_head]
      rw [List.filter_cons, if_neg (by rw [h]; exact Bool.false_ne_true)]
    · rw [List.erase_cons_tail hb]
      rw [List.filter_cons, List.filter_cons, ih]

/-- Claim C9: a connection whose isHealthCheck flag is set never
contributes to activeConnectionCount (erasing such an entry leaves the
count unchanged, for every tracker state); and processing a health check
request on a registered idle connection during shutdown leaves
activeConnectionCount unchanged even though the connection's idle flag
becomes false. -/
theorem healthCheck_never_active :
    (∀ (t : TrackerState) (cid i : Nat) (sd : SockData),
      (cid, i) ∈ t.connections → t.sockets[i]? = some sd → sd.isCheck = true →
      TrackerState.activeConnectionCount
          { t with connections := t.connections.erase (cid, i) }
        = t.activeConnectionCount)
    ∧ (∀ (t : TrackerState) (nid i cid : Nat) (sd : SockData) (url : String),
      t.sockets[i]? = some sd → sd.id = some cid → cid ≠ 0 →
      mapGet t.connections cid = some i → sd.idle = true →
      t.isShuttingDown = true → t.heatlhCheckUrls.contains url = true →
      (onRequest t nid i url).1.activeConnectionCount = t.activeConnectionCount
      ∧ ((onRequest t nid i url).1.sockets[i]?).map SockData.idle
          = some false) := by
  constructor
  · intro t cid i sd hmem hsd hcheck
    unfold TrackerState.activeConnectionCount
    have hp : sockActive t.sockets i = false := by
      unfold sockActive
      rw [hsd]
      simp [hcheck]
    have hfe := filter_erase_of_neg (fun e => sockActive t.sockets e.2)
      (cid, i) t.connections hp
    simp only
    rw [hfe]
  · intro t nid i cid sd url hsd hid hcid hmg hidle hshut hurl
    have htr : truthyId sd.id = true := by
      rw [hid]
      simp [truthyId, hcid]
    have honc : onConnection t nid i = (t, nid) := by
      unfold onConnection
      simp only [hsd]
      rw [if_pos htr]
    have hreq : (onRequest t nid i url).1
        = { t with sockets :=
              (t.sockets.set i { sd with isCheck := true, idle := false }) } := by
      unfold onRequest
      rw [honc]
      simp only [hsd, hid, hmg, TrackerState.isValidCheck, hurl, hshut]
      simp [List.set_set]
    rw [hreq]
    have hlen : i < t.sockets.length := getElem?_lt_length hsd
    constructor
    · unfold TrackerState.activeConnectionCount
      have hcongr : ∀ e ∈ t.connections,
          sockActive (t.sockets.set i { sd with isCheck := true, idle := false }) e.2
            = sockActive t.sockets e.2 := by
        intro e _
        by_cases hie : i = e.2
        · subst hie
          unfold sockActive
          rw [List.getElem?_set_self hlen, hsd]
          simp [hidle]
        · unfold sockActive
          rw [List.getElem?_set_ne hie]
      simp only
      rw [List.filter_congr hcongr]
    · simp only
      rw [List.getElem?_set_self hlen]
      rfl

def hcTracker : TrackerState :=
  { isShuttingDown := true,
    connections := [(1, 0), (2, 1)],
    sockets := [{ id := some 1, idle := true, isCheck := false, destroyed := false },
                { id := some 2, idle := false, isCheck := false, destroyed := false }],
    listening := true,
    heatlhCheckUrls := ["/api/probe/ready"] }

theorem healthCheck_never_active_witness :
    hcTracker.sockets[0]?
        = some { id := some 1, idle := true, isCheck := false, destroyed := false }
    ∧ hcTracker.isShuttingDown = true
    ∧ hcTracker.heatlhCheckUrls.contains "/api/probe/ready" = true
    ∧ (onRequest hcTracker 5 0 "/api/probe/ready").1.activeConnectionCount
        = hcTracker.activeConnectionCount := by
  refine ⟨by decide, rfl, by decide, ?_⟩
  exact (healthCheck_never_active.2 hcTracker 5 0 1
    { id := some 1, idle := true, isCheck := false, destroyed := false }
    "/api/probe/ready" (by decide) rfl (by decide) (by decide) rfl rfl
    (by decide)).1

/-- Pointwise description of the socket heap after the requestShutdown
loop: a socket that is idle and referenced by some map entry is marked
destroyed, every other socket is untouched. -/
def markIdleDestroyed (conns : List (Nat × Nat)) (socks : List SockData)
    (i : Nat) : Option SockData :=
  match socks[i]? with
  | none => none
  | some sd =>
    if sd.idle && conns.any (fun e => e.2 == i) then
      some { sd with destroyed := true }
    else some sd

theorem sockIdle_set_destroyed (socks : List SockData) (j : Nat)
    (sd : SockData) (h : socks[j]? = some sd) (i : Nat) :
    sockIdle (socks.set j { sd with destroyed := true }) i
      = sockIdle socks i := by
  by_cases hij : j = i
  · subst hij
    unfold sockIdle
    rw [List.getElem?_set_self (getElem?_lt_length h), h]
  · unfold sockIdle
    rw [List.getElem?_set_ne hij]

theorem requestShutdownLoop_spec (conns : List (Nat × Nat))
    (socks : List SockData) :
    (requestShutdownLoop conns socks).1
        = conns.filter (fun e => !sockIdle socks e.2)
    ∧ ∀ i, (requestShutdownLoop conns socks).2[i]?
        = markIdleDestroyed conns socks i := by
  induction conns generalizing socks with
  | nil =>
    refine ⟨rfl, fun i => ?_⟩
    unfold markIdleDestroyed
    cases h : socks[i]? <;> simp [requestShutdownLoop, h]
  | cons e rest ih =>
    cases hsd : socks[e.2]? with
    | none =>
      unfold requestShutdownLoop
      simp only [hsd]
      obtain ⟨ih1, ih2⟩ := ih socks
      constructor
      · rw [ih1, List.filter_cons]
        rw [if_pos (by unfold sockIdle; rw [hsd]; rfl)]
      · intro i
        rw [ih2 i]
        unfold markIdleDestroyed
        by_cases hie : e.2 = i
        · subst hie
          rw [hsd]
        · have hieb : (e.2 == i) = false := beq_eq_false_iff_ne.mpr hie
          cases h2 : socks[i]? with
          | none => simp [h2]
          | some v =>
            simp only [h2, List.any_cons]
            simp only [hieb, Bool.false_or]
    | some sd =>
      cases hidle : sd.idle with
      | true =>
        unfold requestShutdownLoop
        simp only [hsd]
        rw [if_pos hidle]
        obtain ⟨ih1, ih2⟩ :=
          ih (socks.set e.2 { sd with destroyed := true })
        constructor
        · rw [ih1, List.filter_cons]
          rw [if_neg (by unfold sockIdle; rw [hsd]; simp [hidle])]
          exact List.filter_congr
            (fun x _ => by rw [sockIdle_set_destroyed socks e.2 sd hsd x.2])
        · intro i
          rw [ih2 i]
          unfold markIdleDestroyed
          by_cases hie : e.2 = i
          · subst hie
            rw [List.getElem?_set_self (getElem?_lt_length hsd), hsd]
            simp [hidle, List.any_cons]
          · rw [List.getElem?_set_ne hie]
            have hieb : (e.2 == i) = false := beq_eq_false_iff_ne.mpr hie
            cases h2 : socks[i]? with
            | none => simp [h2]
            | some v =>
              simp only [h2, List.any_cons]
              simp only [hieb, Bool.false_or]
      | false =>
        unfold requestShutdownLoop
        simp only [hsd]
        rw [if_neg (by simp [hidle])]
        obtain ⟨ih1, ih2⟩ := ih socks
        constructor
        · rw [ih1, List.filter_cons]
          rw [if_pos (by unfold sockIdle; rw [hsd]; simp [hidle])]
        · intro i
          rw [ih2 i]
          unfold markIdleDestroyed
          by_cases hie : e.2 = i
          · subst hie
            rw [hsd]
            simp [hidle]
          · have hieb : (e.2 == i) = false := beq_eq_false_iff_ne.mpr hie
            cases h2 : socks[i]? with
            | none => simp [h2]
            | some v =>
              simp only [h2, List.any_cons]
              simp only [hieb, Bool.false_or]

/-- Claim C10: requestShutdown sets isShuttingDown, destroys and removes
exactly the map entries whose socket is idle (the kept entries are the
order-preserving filter of the non-idle ones); a socket whose idle flag is
false keeps its record (id, idle, isHealthCheck, destroyed all unchanged),
a referenced idle socket is only marked destroyed, an unreferenced socket
is untouched, and the listening flag and health check URL list are not
modified. -/
theorem requestShutdown_frame (t : TrackerState) (i : Nat) (sd : SockData)
    (h : t.sockets[i]? = some sd) :
    (t.requestShutdown).isShuttingDown = true
    ∧ (t.requestShutdown).connections
        = t.connections.filter (fun e => !sockIdle t.sockets e.2)
    ∧ (t.requestShutdown).listening = t.listening
    ∧ (t.requestShutdown).heatlhCheckUrls = t.heatlhCheckUrls
    ∧ (sd.idle = false → (t.requestShutdown).sockets[i]? = some sd)
    ∧ (sd.idle = true → t.connections.any (fun e => e.2 == i) = true →
        (t.requestShutdown).sockets[i]? = some { sd with destroyed := true })
    ∧ (t.connections.any (fun e => e.2 == i) = false →
        (t.requestShutdown).sockets[i]? = some sd) := by
  obtain ⟨l1, l2⟩ := requestShutdownLoop_spec t.connections t.sockets
  refine ⟨rfl, l1, rfl, rfl, ?_, ?_, ?_⟩
  · intro hidle
    show (requestShutdownLoop t.connections t.sockets).2[i]? = some sd
    rw [l2 i]
    unfold markIdleDestroyed
    rw [h]
    simp [hidle]
  · intro hidle hany
    show (requestShutdownLoop t.connections t.sockets).2[i]?
      = some { sd with destroyed := true }
    rw [l2 i]
    unfold markIdleDestroyed
    rw [h]
    simp [hidle, hany]
  · intro hany
    show (requestShutdownLoop t.connections t.sockets).2[i]? = some sd
    rw [l2 i]
    unfold markIdleDestroyed
    rw [h]
    simp [hany]

def frameTracker : TrackerState :=
  { isShuttingDown := false,
    connections := [(1, 0), (2, 1)],
    sockets := [{ id := some 1, idle := true, isCheck := false, destroyed := false },
                { id := some 2, idle := false, isCheck := false, destroyed := false }],
    listening := true,
    heatlhCheckUrls := [] }

theorem requestShutdown_frame_witness :
    frameTracker.sockets[1]?
        = some { id := some 2, idle := false, isCheck := false, destroyed := false }
    ∧ (frameTracker.requestShutdown).isShuttingDown = true
    ∧ (frameTracker.requestShutdown).sockets[1]?
        = some { id := some 2, idle := false, isCheck := false, destroyed := false } := by
  refine ⟨by decide, ?_, ?_⟩
  · exact (requestShutdown_frame frameTracker 1
      { id := some 2, idle := false, isCheck := false, destroyed := false }
      (by decide)).1
  · exact (requestShutdown_frame frameTracker 1
      { id := some 2, idle := false, isCheck := false, destroyed := false }
      (by decide)).2.2.2.2.1 rfl
